import Mathlib

/-!
Verification development for the Google GenAI generate-content instrumentation
(file `generate_content.py` of the repository).  The Python module is shallowly
embedded: pure helpers become Lean functions on an explicit dynamic-value type,
the per-call accumulator becomes a structure with explicit state passing, the
telemetry sink becomes a list of emitted effects, and the four call-shape
adapters become trace-producing functions over explicit outcome scenarios.
-/

namespace GenAI

/-- Dynamic values of the embedded Python fragment: `None`, booleans, integers,
strings, lists, dict-shaped containers (key lookup) and attribute-shaped
objects (attribute lookup, as with pydantic models). -/
inductive PyVal where
  | vnone
  | vbool (b : Bool)
  | vint (n : Int)
  | vstr (s : String)
  | vlist (xs : List PyVal)
  | vdict (entries : List (String × PyVal))
  | vobj (attrs : List (String × PyVal))
deriving Repr

/-- Auxiliary character-level splitter for `pySplitOnDot`. -/
def splitCharsOnDot : List Char → List String
  | [] => [""]
  | c :: rest =>
    let r := splitCharsOnDot rest
    if c = '.' then "" :: r
    else
      match r with
      | h :: t => String.mk (c :: h.data) :: t
      | [] => [String.mk [c]]

/-- Models the Python expression path.split(".") used by the extractors:
splits a string on the dot separator, keeping empty segments. -/
def pySplitOnDot (s : String) : List String :=
  splitCharsOnDot s.data

/-- Models dict.get(key): returns `None` when the key is missing. -/
def dictGet (entries : List (String × PyVal)) (key : String) : PyVal :=
  match entries.find? (fun e => e.1 == key) with
  | some e => e.2
  | none => PyVal.vnone

/-- Models getattr(obj, key) on an attribute-shaped object: a missing
attribute raises AttributeError, embedded as an error value. -/
def getAttr (attrs : List (String × PyVal)) (key : String) : Except String PyVal :=
  match attrs.find? (fun e => e.1 == key) with
  | some e => Except.ok e.2
  | none => Except.error ("AttributeError: " ++ key)

/-- The shared segment loop of `_get_config_property` and
`_get_response_property`: at each segment, a `None` current value
short-circuits to `None`; a dict is read with dict.get; any other value is
read with getattr (raising AttributeError when the attribute is missing,
which for non-object scalars is always). -/
def extractSegments : PyVal → List String → Except String PyVal
  | cur, [] => Except.ok cur
  | PyVal.vnone, _ :: _ => Except.ok PyVal.vnone
  | PyVal.vdict entries, seg :: rest => extractSegments (dictGet entries seg) rest
  | PyVal.vobj attrs, seg :: rest =>
    match getAttr attrs seg with
    | Except.ok v => extractSegments v rest
    | Except.error e => Except.error e
  | PyVal.vbool _, seg :: _ => Except.error ("AttributeError: " ++ seg)
  | PyVal.vint _, seg :: _ => Except.error ("AttributeError: " ++ seg)
  | PyVal.vstr _, seg :: _ => Except.error ("AttributeError: " ++ seg)
  | PyVal.vlist _, seg :: _ => Except.error ("AttributeError: " ++ seg)

/-- Embeds `_get_config_property`: a `None` config returns `None` before the
segment loop; otherwise the path is split on dots and walked. -/
def _get_config_property (config : PyVal) (path : String) : Except String PyVal :=
  match config with
  | PyVal.vnone => Except.ok PyVal.vnone
  | c => extractSegments c (pySplitOnDot path)

/-- Embeds `_get_response_property`: identical segment walk, with the `None`
check performed only inside the loop. -/
def _get_response_property (response : PyVal) (path : String) : Except String PyVal :=
  extractSegments response (pySplitOnDot path)

/-- A path through a container is benignly missing or present: every step
either short-circuits on a `None` container, reads a dict (where a missing
key benignly yields `None`), or reads an attribute that exists on the object.
Paths that would read an attribute that does not exist, or read through a
scalar, are not benign (the integration-shape fault case of the spec). -/
def benignPath : PyVal → List String → Bool
  | _, [] => true
  | PyVal.vnone, _ :: _ => true
  | PyVal.vdict entries, seg :: rest => benignPath (dictGet entries seg) rest
  | PyVal.vobj attrs, seg :: rest =>
    match attrs.find? (fun e => e.1 == seg) with
    | some e => benignPath e.2 rest
    | none => false
  | _, _ :: _ => false

theorem extractSegments_benign_ok :
    ∀ (segs : List String) (c : PyVal), benignPath c segs = true →
      ∃ v, extractSegments c segs = Except.ok v := by
  intro segs
  induction segs with
  | nil => intro c _; cases c <;> exact ⟨_, rfl⟩
  | cons seg rest ih =>
    intro c hb
    cases c with
    | vnone => exact ⟨PyVal.vnone, rfl⟩
    | vbool b => simp [benignPath] at hb
    | vint n => simp [benignPath] at hb
    | vstr s => simp [benignPath] at hb
    | vlist xs => simp [benignPath] at hb
    | vdict entries =>
      simp only [benignPath] at hb
      exact ih _ hb
    | vobj attrs =>
      simp only [benignPath] at hb
      cases hfind : attrs.find? (fun e => e.1 == seg) with
      | none => rw [hfind] at hb; simp at hb
      | some e =>
        rw [hfind] at hb
        obtain ⟨v, hv⟩ := ih _ hb
        refine ⟨v, ?_⟩
        simp [extractSegments, getAttr, hfind, hv]

/-- C9: for every container (mapping-shaped or attribute-shaped, as used for
request configurations and response objects) and every dotted path, field
extraction splits the path on the dot, at each segment looks up the key when
the current value is a mapping and otherwise reads the named attribute,
short-circuits to the absent sentinel (`None`) without error whenever the
current value is absent at a step, and never raises for a benignly-missing
path.  Stated for both `_get_config_property` and `_get_response_property`. -/
theorem C9_field_extraction_safe :
    (∀ (container : PyVal) (path : String),
      benignPath container (pySplitOnDot path) = true →
        (∃ v, _get_config_property container path = Except.ok v) ∧
        (∃ v, _get_response_property container path = Except.ok v)) ∧
    (∀ (seg : String) (rest : List String),
      extractSegments PyVal.vnone (seg :: rest) = Except.ok PyVal.vnone) ∧
    (∀ (path : String), _get_config_property PyVal.vnone path = Except.ok PyVal.vnone) := by
  refine ⟨?_, ?_, ?_⟩
  · intro container path hb
    constructor
    · cases container with
      | vnone => exact ⟨PyVal.vnone, rfl⟩
      | vbool b => exact extractSegments_benign_ok _ _ hb
      | vint n => exact extractSegments_benign_ok _ _ hb
      | vstr s => exact extractSegments_benign_ok _ _ hb
      | vlist xs => exact extractSegments_benign_ok _ _ hb
      | vdict entries => exact extractSegments_benign_ok _ _ hb
      | vobj attrs => exact extractSegments_benign_ok _ _ hb
    · exact extractSegments_benign_ok _ _ hb
  · intro seg rest; rfl
  · intro path; rfl

/-- Witness for C9 at a concrete response-shaped object and the dotted path
used by the token extractor: the benign-path hypothesis is discharged by
evaluation and the extraction succeeds. -/
theorem C9_field_extraction_safe_witness :
    ∃ v, _get_response_property
      (PyVal.vobj [("usage_metadata",
        PyVal.vobj [("prompt_token_count", PyVal.vint 5),
                    ("candidates_token_count", PyVal.vnone)])])
      "usage_metadata.prompt_token_count" = Except.ok v :=
  ((C9_field_extraction_safe.1
    (PyVal.vobj [("usage_metadata",
      PyVal.vobj [("prompt_token_count", PyVal.vint 5),
                  ("candidates_token_count", PyVal.vnone)])])
    "usage_metadata.prompt_token_count" (by rfl))).2

/-! Typed views of the SDK objects used by the accumulator.  The google.genai
response and config types are pydantic models on which every declared field
exists as an attribute (holding `None` when unset), so single-field and
dotted-field extraction on them always succeeds; the typed structures below
reflect exactly that shape.  Enumerants (finish reasons, block reasons) are
represented by their name strings. -/

/-- One candidate of a response event: optional content, optional
finish-reason enumerant (by name). -/
structure Candidate where
  content : Option PyVal
  finish_reason : Option String
deriving Repr

/-- The prompt-feedback block of a response: an optional block-reason
enumerant (by name). -/
structure PromptFeedback where
  block_reason : Option String
deriving Repr

/-- The usage-metadata block of a response.  The token-count fields are kept
as dynamic values so that absent and non-numeric payloads can be expressed. -/
structure UsageMetadata where
  prompt_token_count : PyVal
  candidates_token_count : PyVal
deriving Repr

/-- One response event produced by the underlying library. -/
structure GenerateContentResponse where
  candidates : List Candidate
  prompt_feedback : Option PromptFeedback
  usage_metadata : Option UsageMetadata
deriving Repr

/-- The request configuration fields read by the instrumentation.  Absent
fields hold `None`. -/
structure GenerateContentConfig where
  temperature : PyVal
  top_k : PyVal
  top_p : PyVal
  system_instruction : PyVal
deriving Repr

/-- Models the Python str.upper method, mapping each character of the
string to its uppercase form. -/
def pyUpper (s : String) : String :=
  String.mk (s.data.map Char.toUpper)

/-- The name of the BLOCKED_REASON_UNSPECIFIED enumerant of BlockedReason. -/
def BLOCKED_REASON_UNSPECIFIED : String := "BLOCKED_REASON_UNSPECIFIED"

/-- The constant `_CONTENT_ELIDED` of the module. -/
def _CONTENT_ELIDED : String := "<elided>"

/-- The constant `_GENERATE_CONTENT_OP_NAME` of the module. -/
def _GENERATE_CONTENT_OP_NAME : String := "generate_content"

/-- Attribute-name constants from the semantic-conventions registry. -/
def GEN_AI_SYSTEM : String := "gen_ai.system"

def GEN_AI_REQUEST_MODEL : String := "gen_ai.request.model"

def GEN_AI_OPERATION_NAME : String := "gen_ai.operation.name"

def GEN_AI_REQUEST_TEMPERATURE : String := "gen_ai.request.temperature"

def GEN_AI_REQUEST_TOP_K : String := "gen_ai.request.top_k"

def GEN_AI_REQUEST_TOP_P : String := "gen_ai.request.top_p"

def GEN_AI_USAGE_INPUT_TOKENS : String := "gen_ai.usage.input_tokens"

def GEN_AI_USAGE_OUTPUT_TOKENS : String := "gen_ai.usage.output_tokens"

def GEN_AI_RESPONSE_FINISH_REASONS : String := "gen_ai.response.finish_reasons"

def GEN_AI_TOKEN_TYPE : String := "gen_ai.token.type"

def ERROR_TYPE : String := "error.type"

def CODE_FUNCTION_NAME : String := "code.function.name"

/-- Python truthiness on the embedded dynamic values. -/
def pyTruthy : PyVal → Bool
  | PyVal.vnone => false
  | PyVal.vbool b => b
  | PyVal.vint n => n != 0
  | PyVal.vstr s => s != ""
  | PyVal.vlist xs => !xs.isEmpty
  | PyVal.vdict entries => !entries.isEmpty
  | PyVal.vobj _ => true

/-- Embeds the Python guard `if v and isinstance(v, int)` followed by adding
`v`: yields the integer to add when the guard passes.  `bool` is an `int`
subclass in Python, so a `True` value passes the guard and adds 1; falsy
values (including integer zero) and non-int values yield nothing. -/
def truthyIntValue : PyVal → Option Int
  | PyVal.vint n => if n = 0 then none else some n
  | PyVal.vbool b => if b then some 1 else none
  | _ => none

/-- The contribution of one extracted token-count value to the running total:
the added integer when the guard passes, zero otherwise.  (A zero integer is
skipped by the guard but contributes zero either way.) -/
def tokenContribution (v : PyVal) : Int :=
  match truthyIntValue v with
  | some n => n
  | none => 0

/-- Extraction of usage_metadata.prompt_token_count on the typed response:
an absent usage_metadata short-circuits to `None`. -/
def responsePromptTokenCount (r : GenerateContentResponse) : PyVal :=
  match r.usage_metadata with
  | none => PyVal.vnone
  | some u => u.prompt_token_count

/-- Extraction of usage_metadata.candidates_token_count on the typed
response: an absent usage_metadata short-circuits to `None`. -/
def responseCandidatesTokenCount (r : GenerateContentResponse) : PyVal :=
  match r.usage_metadata with
  | none => PyVal.vnone
  | some u => u.candidates_token_count

/-- The mutable state of `_GenerateContentInstrumentationHelper` (the
per-call accumulator).  The start time and the OTel wrapper reference are
not part of the functional state; emitted telemetry is modelled separately
as effect lists. -/
structure Helper where
  genai_system : String
  genai_request_model : String
  finish_reasons_set : List String
  error_type : Option String
  input_tokens : Int
  output_tokens : Int
  content_recording_enabled : Bool
  response_index : Nat
  candidate_index : Nat
deriving Repr

/-- Construction of the helper (the accumulator constructor): counters start
at zero, the finish-reason set is empty, no error type is set, and the
content-recording flag is read once at construction. -/
def Helper.init (genai_system model : String) (recording : Bool) : Helper :=
  { genai_system := genai_system
    genai_request_model := model
    finish_reasons_set := []
    error_type := none
    input_tokens := 0
    output_tokens := 0
    content_recording_enabled := recording
    response_index := 0
    candidate_index := 0 }

/-- Telemetry effects handed to the sink (span attributes, log events,
metric recordings).  Log-event bodies are association lists in insertion
order, mirroring the Python dict literals. -/
inductive TelemetryEffect where
  | setSpanAttribute (key : String) (value : PyVal)
  | logSystemPrompt (attrs : List (String × PyVal)) (body : List (String × PyVal))
  | logUserPrompt (attrs : List (String × PyVal)) (body : List (String × PyVal))
  | logResponseContent (attrs : List (String × PyVal)) (body : List (String × PyVal))
  | recordTokenUsage (value : Int) (attrs : List (String × PyVal))
  | recordOperationDuration (attrs : List (String × PyVal))
deriving Repr

/-- Models `_to_dict`: serialisation of a payload to a plain structure.  On
the embedded dynamic values this is the identity (dicts are returned as-is,
model_dump and the json round-trip preserve the represented value). -/
def _to_dict (v : PyVal) : PyVal := v

/-- The attributes `start_span_as_current_span` passes when opening the
call span: originating function name, backend system, request model and the
fixed operation name. -/
def start_span_attributes (h : Helper) (function_name : String) :
    List (String × PyVal) :=
  [(CODE_FUNCTION_NAME, PyVal.vstr function_name),
   (GEN_AI_SYSTEM, PyVal.vstr h.genai_system),
   (GEN_AI_REQUEST_MODEL, PyVal.vstr h.genai_request_model),
   (GEN_AI_OPERATION_NAME, PyVal.vstr _GENERATE_CONTENT_OP_NAME)]

/-- Embeds `_maybe_update_token_counts`: extracts the two token counts from
usage metadata and adds each to its running total when the Python guard
`if value and isinstance(value, int)` passes. -/
def _maybe_update_token_counts (h : Helper) (r : GenerateContentResponse) : Helper :=
  let h1 :=
    match truthyIntValue (responsePromptTokenCount r) with
    | some n => { h with input_tokens := h.input_tokens + n }
    | none => h
  match truthyIntValue (responseCandidatesTokenCount r) with
  | some n => { h1 with output_tokens := h1.output_tokens + n }
  | none => h1

/-- Embeds `_maybe_update_error_type`: a response with candidates returns
early; with zero candidates, a missing prompt feedback, a missing block
reason, or the unspecified block reason classifies as NO_CANDIDATES, and a
specific block reason classifies as BLOCKED_ followed by the uppercased
reason name. -/
def _maybe_update_error_type (h : Helper) (r : GenerateContentResponse) : Helper :=
  match r.candidates with
  | _ :: _ => h
  | [] =>
    match r.prompt_feedback with
    | none => { h with error_type := some "NO_CANDIDATES" }
    | some pf =>
      match pf.block_reason with
      | none => { h with error_type := some "NO_CANDIDATES" }
      | some br =>
        if br = BLOCKED_REASON_UNSPECIFIED then
          { h with error_type := some "NO_CANDIDATES" }
        else
          { h with error_type := some ("BLOCKED_" ++ pyUpper br) }

/-- The system-instruction value of an optional config, as read through
`_get_config_property(config, "system_instruction")`. -/
def configSystemInstruction : Option GenerateContentConfig → PyVal
  | none => PyVal.vnone
  | some c => c.system_instruction

/-- The temperature value of an optional config. -/
def configTemperature : Option GenerateContentConfig → PyVal
  | none => PyVal.vnone
  | some c => c.temperature

/-- The top_k value of an optional config. -/
def configTopK : Option GenerateContentConfig → PyVal
  | none => PyVal.vnone
  | some c => c.top_k

/-- The top_p value of an optional config. -/
def configTopP : Option GenerateContentConfig → PyVal
  | none => PyVal.vnone
  | some c => c.top_p

/-- Embeds `_maybe_log_system_instruction`: a falsy system instruction emits
nothing; otherwise one system-prompt event is emitted whose attributes carry
the backend system and whose body content is the real payload when content
recording is enabled and the elision placeholder otherwise. -/
def _maybe_log_system_instruction (h : Helper) (config : Option GenerateContentConfig) :
    List TelemetryEffect :=
  let si := configSystemInstruction config
  if !pyTruthy si then []
  else
    [TelemetryEffect.logSystemPrompt
      [(GEN_AI_SYSTEM, PyVal.vstr h.genai_system)]
      [("content",
        if h.content_recording_enabled then _to_dict si
        else PyVal.vstr _CONTENT_ELIDED)]]

/-- Embeds `_maybe_log_single_user_prompt`: one user-prompt event whose
attributes carry the backend system and whose body content is the payload
(a list of parts is wrapped as a Content with those parts) when recording is
enabled, and the elision placeholder otherwise.  The index and total
parameters of the Python function are accepted but never used in the emitted
event, so they are omitted here. -/
def _maybe_log_single_user_prompt (h : Helper) (contents : PyVal) :
    List TelemetryEffect :=
  [TelemetryEffect.logUserPrompt
    [(GEN_AI_SYSTEM, PyVal.vstr h.genai_system)]
    [("content",
      if h.content_recording_enabled then
        _to_dict
          (match contents with
           | PyVal.vlist xs => PyVal.vobj [("parts", PyVal.vlist xs)]
           | v => v)
      else PyVal.vstr _CONTENT_ELIDED)]]

/-- Embeds `_maybe_log_user_prompt`: a list of content units emits one event
per entry; a single unit emits one event. -/
def _maybe_log_user_prompt (h : Helper) (contents : PyVal) : List TelemetryEffect :=
  match contents with
  | PyVal.vlist xs => xs.flatMap (fun entry => _maybe_log_single_user_prompt h entry)
  | v => _maybe_log_single_user_prompt h v

/-- The body dict built by `_maybe_log_response_candidate`, in insertion
order: the flattened candidate index; then, with recording enabled, the
candidate content when present, and with recording disabled the elision
placeholder unconditionally; then the finish-reason name when present. -/
def candidateBody (h : Helper) (c : Candidate) (flat_candidate_index : Nat) :
    List (String × PyVal) :=
  let base := [("index", PyVal.vint (Int.ofNat flat_candidate_index))]
  let base :=
    if h.content_recording_enabled then
      match c.content with
      | some content => base ++ [("content", _to_dict content)]
      | none => base
    else base ++ [("content", PyVal.vstr _CONTENT_ELIDED)]
  match c.finish_reason with
  | some fr => base ++ [("finish_reason", PyVal.vstr fr)]
  | none => base

/-- Embeds `_maybe_log_response_candidate`: one response-content event with
the backend system attribute and the candidate body.  Note that the
function reads the finish reason into the event body only; it does not add
it to the finish-reason set of the helper. -/
def _maybe_log_response_candidate (h : Helper) (c : Candidate)
    (flat_candidate_index : Nat) : TelemetryEffect :=
  TelemetryEffect.logResponseContent
    [(GEN_AI_SYSTEM, PyVal.vstr h.genai_system)]
    (candidateBody h c flat_candidate_index)

/-- The candidate loop of `_maybe_log_response`: each candidate consumes the
next value of the flattened candidate index and produces one event. -/
def logCandidatesLoop (h : Helper) : List Candidate → Helper × List TelemetryEffect
  | [] => (h, [])
  | c :: rest =>
    let eff := _maybe_log_response_candidate h c h.candidate_index
    let h1 := { h with candidate_index := h.candidate_index + 1 }
    let (h2, effs) := logCandidatesLoop h1 rest
    (h2, eff :: effs)

/-- Embeds `_maybe_log_response`: the stats and safety-ratings hooks are
no-ops, an empty candidate list returns early, and otherwise each candidate
is logged while the flattened candidate index advances. -/
def _maybe_log_response (h : Helper) (r : GenerateContentResponse) :
    Helper × List TelemetryEffect :=
  match r.candidates with
  | [] => (h, [])
  | cs => logCandidatesLoop h cs

/-- Embeds `process_response`: updates token counts, updates the error
classification, logs the response candidates, and advances the response
index. -/
def process_response (h : Helper) (r : GenerateContentResponse) :
    Helper × List TelemetryEffect :=
  let h1 := _maybe_update_token_counts h r
  let h2 := _maybe_update_error_type h1 r
  let (h3, effs) := _maybe_log_response h2 r
  ({ h3 with response_index := h3.response_index + 1 }, effs)

/-- Embeds `process_error`: stores the kind name of the fault (the Python
expression str(e.__class__.__name__)) as the error classification. -/
def process_error (h : Helper) (kind : String) : Helper :=
  { h with error_type := some kind }

/-- Insertion into a sorted list of strings, for `pySorted`. -/
def insertSorted (s : String) : List String → List String
  | [] => [s]
  | x :: rest => if s ≤ x then s :: x :: rest else x :: insertSorted s rest

/-- Models the Python builtin sorted on a collection of strings. -/
def pySorted : List String → List String
  | [] => []
  | x :: rest => insertSorted x (pySorted rest)

/-- The attribute set of the input-direction token-usage metric record. -/
def token_usage_input_attributes (h : Helper) : List (String × PyVal) :=
  [(GEN_AI_TOKEN_TYPE, PyVal.vstr "input"),
   (GEN_AI_SYSTEM, PyVal.vstr h.genai_system),
   (GEN_AI_REQUEST_MODEL, PyVal.vstr h.genai_request_model),
   (GEN_AI_OPERATION_NAME, PyVal.vstr _GENERATE_CONTENT_OP_NAME)]

/-- The attribute set of the output-direction token-usage metric record. -/
def token_usage_output_attributes (h : Helper) : List (String × PyVal) :=
  [(GEN_AI_TOKEN_TYPE, PyVal.vstr "output"),
   (GEN_AI_SYSTEM, PyVal.vstr h.genai_system),
   (GEN_AI_REQUEST_MODEL, PyVal.vstr h.genai_request_model),
   (GEN_AI_OPERATION_NAME, PyVal.vstr _GENERATE_CONTENT_OP_NAME)]

/-- The attribute set of the duration metric record: the error type is
appended only when set. -/
def duration_attributes (h : Helper) : List (String × PyVal) :=
  [(GEN_AI_SYSTEM, PyVal.vstr h.genai_system),
   (GEN_AI_REQUEST_MODEL, PyVal.vstr h.genai_request_model),
   (GEN_AI_OPERATION_NAME, PyVal.vstr _GENERATE_CONTENT_OP_NAME)] ++
  (match h.error_type with
   | some e => [(ERROR_TYPE, PyVal.vstr e)]
   | none => [])

/-- Embeds `finalize_processing`: sets the three final span attributes
(total input tokens, total output tokens, sorted finish reasons), records
the two token-usage metric observations, and records the duration metric. -/
def finalize_processing (h : Helper) : List TelemetryEffect :=
  [TelemetryEffect.setSpanAttribute GEN_AI_USAGE_INPUT_TOKENS (PyVal.vint h.input_tokens),
   TelemetryEffect.setSpanAttribute GEN_AI_USAGE_OUTPUT_TOKENS (PyVal.vint h.output_tokens),
   TelemetryEffect.setSpanAttribute GEN_AI_RESPONSE_FINISH_REASONS
     (PyVal.vlist ((pySorted h.finish_reasons_set).map PyVal.vstr)),
   TelemetryEffect.recordTokenUsage h.input_tokens (token_usage_input_attributes h),
   TelemetryEffect.recordTokenUsage h.output_tokens (token_usage_output_attributes h),
   TelemetryEffect.recordOperationDuration (duration_attributes h)]

/-- Embeds `process_request`: sets the request-level span attributes for
temperature, top_k and top_p when the extracted value is not `None`, then
logs the system instruction and the user prompt. -/
def process_request (h : Helper) (contents : PyVal)
    (config : Option GenerateContentConfig) : List TelemetryEffect :=
  let attrEffect := fun (key : String) (v : PyVal) =>
    match v with
    | PyVal.vnone => ([] : List TelemetryEffect)
    | value => [TelemetryEffect.setSpanAttribute key value]
  attrEffect GEN_AI_REQUEST_TEMPERATURE (configTemperature config) ++
  attrEffect GEN_AI_REQUEST_TOP_K (configTopK config) ++
  attrEffect GEN_AI_REQUEST_TOP_P (configTopP config) ++
  _maybe_log_system_instruction h config ++
  _maybe_log_user_prompt h contents

/-- Processing a list of response events in order, threading the helper
state and concatenating the emitted effects. -/
def process_response_list (h : Helper) :
    List GenerateContentResponse → Helper × List TelemetryEffect
  | [] => (h, [])
  | r :: rest =>
    let (h1, effs1) := process_response h r
    let (h2, effs2) := process_response_list h1 rest
    (h2, effs1 ++ effs2)

/-- The total input-token contribution of a list of response events. -/
def inputTokenSum (rs : List GenerateContentResponse) : Int :=
  rs.foldr (fun r acc => tokenContribution (responsePromptTokenCount r) + acc) 0

/-- The total output-token contribution of a list of response events. -/
def outputTokenSum (rs : List GenerateContentResponse) : Int :=
  rs.foldr (fun r acc => tokenContribution (responseCandidatesTokenCount r) + acc) 0

theorem logCandidatesLoop_fst (h : Helper) (cs : List Candidate) :
    (logCandidatesLoop h cs).1 =
      { h with candidate_index := h.candidate_index + cs.length } := by
  induction cs generalizing h with
  | nil => simp [logCandidatesLoop]
  | cons c rest ih =>
    simp only [logCandidatesLoop, ih, List.length_cons]
    congr 1
    omega

theorem _maybe_log_response_fst (h : Helper) (r : GenerateContentResponse) :
    (_maybe_log_response h r).1 =
      { h with candidate_index := h.candidate_index + r.candidates.length } := by
  unfold _maybe_log_response
  cases hc : r.candidates with
  | nil => simp
  | cons c cs => rw [logCandidatesLoop_fst]

theorem _maybe_update_token_counts_fields (h : Helper) (r : GenerateContentResponse) :
    (_maybe_update_token_counts h r).input_tokens =
      h.input_tokens + tokenContribution (responsePromptTokenCount r) ∧
    (_maybe_update_token_counts h r).output_tokens =
      h.output_tokens + tokenContribution (responseCandidatesTokenCount r) ∧
    (_maybe_update_token_counts h r).finish_reasons_set = h.finish_reasons_set ∧
    (_maybe_update_token_counts h r).error_type = h.error_type ∧
    (_maybe_update_token_counts h r).candidate_index = h.candidate_index ∧
    (_maybe_update_token_counts h r).response_index = h.response_index ∧
    (_maybe_update_token_counts h r).content_recording_enabled = h.content_recording_enabled ∧
    (_maybe_update_token_counts h r).genai_system = h.genai_system ∧
    (_maybe_update_token_counts h r).genai_request_model = h.genai_request_model := by
  unfold _maybe_update_token_counts tokenContribution
  cases truthyIntValue (responsePromptTokenCount r) <;>
    cases truthyIntValue (responseCandidatesTokenCount r) <;> simp

theorem _maybe_update_error_type_fields (h : Helper) (r : GenerateContentResponse) :
    (_maybe_update_error_type h r).input_tokens = h.input_tokens ∧
    (_maybe_update_error_type h r).output_tokens = h.output_tokens ∧
    (_maybe_update_error_type h r).finish_reasons_set = h.finish_reasons_set ∧
    (_maybe_update_error_type h r).candidate_index = h.candidate_index ∧
    (_maybe_update_error_type h r).response_index = h.response_index ∧
    (_maybe_update_error_type h r).content_recording_enabled = h.content_recording_enabled ∧
    (_maybe_update_error_type h r).genai_system = h.genai_system ∧
    (_maybe_update_error_type h r).genai_request_model = h.genai_request_model := by
  unfold _maybe_update_error_type
  cases hc : r.candidates with
  | cons c cs => simp
  | nil =>
    cases hpf : r.prompt_feedback with
    | none => simp
    | some pf =>
      cases hbr : pf.block_reason with
      | none => simp [hbr]
      | some br =>
        by_cases hbr2 : br = BLOCKED_REASON_UNSPECIFIED <;> simp [hbr, hbr2]

theorem process_response_fields (h : Helper) (r : GenerateContentResponse) :
    (process_response h r).1.input_tokens =
      h.input_tokens + tokenContribution (responsePromptTokenCount r) ∧
    (process_response h r).1.output_tokens =
      h.output_tokens + tokenContribution (responseCandidatesTokenCount r) ∧
    (process_response h r).1.finish_reasons_set = h.finish_reasons_set := by
  unfold process_response
  obtain ⟨ht1, ht2, ht3, _, _, _, _, _, _⟩ := _maybe_update_token_counts_fields h r
  obtain ⟨he1, he2, he3, _, _, _, _, _⟩ :=
    _maybe_update_error_type_fields (_maybe_update_token_counts h r) r
  simp only [_maybe_log_response_fst]
  exact ⟨by simp [he1, ht1], by simp [he2, ht2], by simp [he3, ht3]⟩

theorem process_response_list_fields (rs : List GenerateContentResponse) (h : Helper) :
    ((process_response_list h rs).1).input_tokens = h.input_tokens + inputTokenSum rs ∧
    ((process_response_list h rs).1).output_tokens = h.output_tokens + outputTokenSum rs ∧
    ((process_response_list h rs).1).finish_reasons_set = h.finish_reasons_set := by
  induction rs generalizing h with
  | nil => simp [process_response_list, inputTokenSum, outputTokenSum]
  | cons r rest ih =>
    obtain ⟨h1, h2, h3⟩ := process_response_fields h r
    obtain ⟨i1, i2, i3⟩ := ih (process_response h r).1
    unfold process_response_list
    simp only [inputTokenSum, outputTokenSum, List.foldr_cons] at *
    refine ⟨?_, ?_, ?_⟩
    · rw [i1, h1]; omega
    · rw [i2, h2]; omega
    · rw [i3, h3]

/-- C4: after processing any sequence of N response events, the input and
output token totals of the accumulator equal the sums of the per-event
extracted prompt_token_count and candidates_token_count contributions
(absent or non-int values contributing zero), and finalize records exactly
those totals both as the two usage span attributes and as the two
token-usage metric observations. -/
theorem C4_token_totals :
    ∀ (system model : String) (recording : Bool)
      (rs : List GenerateContentResponse),
      ((process_response_list (Helper.init system model recording) rs).1).input_tokens
          = inputTokenSum rs ∧
      ((process_response_list (Helper.init system model recording) rs).1).output_tokens
          = outputTokenSum rs ∧
      TelemetryEffect.setSpanAttribute GEN_AI_USAGE_INPUT_TOKENS
          (PyVal.vint (inputTokenSum rs)) ∈
        finalize_processing ((process_response_list (Helper.init system model recording) rs).1) ∧
      TelemetryEffect.setSpanAttribute GEN_AI_USAGE_OUTPUT_TOKENS
          (PyVal.vint (outputTokenSum rs)) ∈
        finalize_processing ((process_response_list (Helper.init system model recording) rs).1) ∧
      TelemetryEffect.recordTokenUsage (inputTokenSum rs)
          (token_usage_input_attributes
            ((process_response_list (Helper.init system model recording) rs).1)) ∈
        finalize_processing ((process_response_list (Helper.init system model recording) rs).1) ∧
      TelemetryEffect.recordTokenUsage (outputTokenSum rs)
          (token_usage_output_attributes
            ((process_response_list (Helper.init system model recording) rs).1)) ∈
        finalize_processing ((process_response_list (Helper.init system model recording) rs).1) := by
  intro system model recording rs
  obtain ⟨h1, h2, _⟩ :=
    process_response_list_fields rs (Helper.init system model recording)
  rw [show (Helper.init system model recording).input_tokens = 0 from rfl, zero_add] at h1
  rw [show (Helper.init system model recording).output_tokens = 0 from rfl, zero_add] at h2
  refine ⟨h1, h2, ?_, ?_, ?_, ?_⟩ <;>
    simp [finalize_processing, h1, h2]

/-- The concrete single-candidate response used to exhibit the C2
divergence: one candidate whose finish reason is STOP. -/
def c2_response : GenerateContentResponse :=
  { candidates := [{ content := none, finish_reason := some "STOP" }]
    prompt_feedback := none
    usage_metadata := none }

/-- C2 (divergence witness): processing a response whose only candidate
carries finish reason STOP leaves the finish-reason set of the accumulator
empty — the logger writes the finish reason into the event body but nothing
ever adds it to the shared set — so the finish-reason span attribute set by
finalize is the empty list rather than the sorted singleton list holding
STOP. -/
theorem C2_finish_reasons_never_collected :
    (process_response (Helper.init "gemini" "gemini-2.0-flash" true) c2_response).1.finish_reasons_set
        = [] ∧
    (process_response (Helper.init "gemini" "gemini-2.0-flash" true) c2_response).2
        = [TelemetryEffect.logResponseContent
            [(GEN_AI_SYSTEM, PyVal.vstr "gemini")]
            [("index", PyVal.vint 0), ("finish_reason", PyVal.vstr "STOP")]] ∧
    (finalize_processing
        (process_response (Helper.init "gemini" "gemini-2.0-flash" true) c2_response).1).get? 2
        = some (TelemetryEffect.setSpanAttribute GEN_AI_RESPONSE_FINISH_REASONS
            (PyVal.vlist [])) ∧
    PyVal.vlist [] ≠ PyVal.vlist [PyVal.vstr "STOP"] := by
  refine ⟨rfl, rfl, rfl, by intro hcontra; cases hcontra⟩

/-- C5: on a response with zero candidates, a missing prompt feedback, a
missing block reason, or the default (unspecified) block reason classifies
the call as NO_CANDIDATES; a specific non-default block reason X classifies
it as BLOCKED_X (with X uppercased as in the source); and a response with at
least one candidate leaves the accumulator entirely unchanged. -/
theorem C5_no_candidates_classification :
    ∀ (h : Helper) (r : GenerateContentResponse),
      (r.candidates = [] →
        ((r.prompt_feedback = none ∨
          (∃ pf, r.prompt_feedback = some pf ∧
            (pf.block_reason = none ∨
             pf.block_reason = some BLOCKED_REASON_UNSPECIFIED))) →
          (_maybe_update_error_type h r).error_type = some "NO_CANDIDATES") ∧
        (∀ pf br, r.prompt_feedback = some pf → pf.block_reason = some br →
          br ≠ BLOCKED_REASON_UNSPECIFIED →
          (_maybe_update_error_type h r).error_type =
            some ("BLOCKED_" ++ pyUpper br))) ∧
      (r.candidates ≠ [] → _maybe_update_error_type h r = h) := by
  intro h r
  refine ⟨fun hc => ⟨?_, ?_⟩, ?_⟩
  · intro hpf
    rcases hpf with hnone | ⟨pf, hpf, hbr⟩
    · simp [_maybe_update_error_type, hc, hnone]
    · rcases hbr with hbrn | hbrs
      · simp [_maybe_update_error_type, hc, hpf, hbrn]
      · simp [_maybe_update_error_type, hc, hpf, hbrs]
  · intro pf br hpf hbr hne
    simp [_maybe_update_error_type, hc, hpf, hbr, hne]
  · intro hne
    cases hcand : r.candidates with
    | nil => exact absurd hcand hne
    | cons c cs => simp [_maybe_update_error_type, hcand]

/-- Concrete helper state used by the witnesses. -/
def witness_helper : Helper := Helper.init "gemini" "gemini-2.0-flash" true

/-- Concrete blocked response: zero candidates, block reason SAFETY. -/
def blocked_response : GenerateContentResponse :=
  { candidates := []
    prompt_feedback := some { block_reason := some "SAFETY" }
    usage_metadata := none }

/-- Concrete empty response: zero candidates, no prompt feedback. -/
def empty_response : GenerateContentResponse :=
  { candidates := []
    prompt_feedback := none
    usage_metadata := none }

/-- Witness for C5 at concrete inputs: a blocked response classifies as
BLOCKED_SAFETY, an empty response classifies as NO_CANDIDATES, and the
single-candidate response leaves the helper unchanged. -/
theorem C5_no_candidates_classification_witness :
    (_maybe_update_error_type witness_helper blocked_response).error_type
        = some "BLOCKED_SAFETY" ∧
    (_maybe_update_error_type witness_helper empty_response).error_type
        = some "NO_CANDIDATES" ∧
    _maybe_update_error_type witness_helper c2_response = witness_helper := by
  refine ⟨?_, ?_, ?_⟩
  · have hf := (C5_no_candidates_classification witness_helper blocked_response).1 rfl
    have hb := hf.2 { block_reason := some "SAFETY" } "SAFETY" rfl rfl (by decide)
    rw [show ("BLOCKED_" ++ pyUpper "SAFETY") = "BLOCKED_SAFETY" from by decide] at hb
    exact hb
  · exact ((C5_no_candidates_classification witness_helper empty_response).1 rfl).1
      (Or.inl rfl)
  · exact (C5_no_candidates_classification witness_helper c2_response).2
      (by intro hx; cases hx)

/-- C7: with content recording disabled, every emitted system-prompt event,
every user-prompt event, and every response-candidate event carries the
fixed redaction placeholder as its logged body content instead of the real
payload, while the span attributes (backend system, request model, operation
name) opened for the call are the correct values independently of the
recording flag. -/
theorem C7_redaction_when_recording_disabled :
    (∀ (h : Helper) (config : Option GenerateContentConfig),
      h.content_recording_enabled = false →
      pyTruthy (configSystemInstruction config) = true →
        _maybe_log_system_instruction h config =
          [TelemetryEffect.logSystemPrompt
            [(GEN_AI_SYSTEM, PyVal.vstr h.genai_system)]
            [("content", PyVal.vstr _CONTENT_ELIDED)]]) ∧
    (∀ (h : Helper) (contents : PyVal),
      h.content_recording_enabled = false →
      ∀ e ∈ _maybe_log_user_prompt h contents,
        e = TelemetryEffect.logUserPrompt
              [(GEN_AI_SYSTEM, PyVal.vstr h.genai_system)]
              [("content", PyVal.vstr _CONTENT_ELIDED)]) ∧
    (∀ (h : Helper) (c : Candidate) (i : Nat),
      h.content_recording_enabled = false →
        (candidateBody h c i).lookup "content" = some (PyVal.vstr _CONTENT_ELIDED)) ∧
    (∀ (h : Helper) (function_name : String),
      start_span_attributes h function_name =
        [(CODE_FUNCTION_NAME, PyVal.vstr function_name),
         (GEN_AI_SYSTEM, PyVal.vstr h.genai_system),
         (GEN_AI_REQUEST_MODEL, PyVal.vstr h.genai_request_model),
         (GEN_AI_OPERATION_NAME, PyVal.vstr _GENERATE_CONTENT_OP_NAME)]) := by
  refine ⟨?_, ?_, ?_, ?_⟩
  · intro h config hrec hsi
    simp [_maybe_log_system_instruction, hsi, hrec]
  · intro h contents hrec e he
    cases contents with
    | vlist xs =>
      simp only [_maybe_log_user_prompt, List.mem_flatMap] at he
      obtain ⟨entry, _, hmem⟩ := he
      simp [_maybe_log_single_user_prompt, hrec] at hmem
      simpa using hmem
    | vnone => simp [_maybe_log_user_prompt, _maybe_log_single_user_prompt, hrec] at he; simpa using he
    | vbool b => simp [_maybe_log_user_prompt, _maybe_log_single_user_prompt, hrec] at he; simpa using he
    | vint n => simp [_maybe_log_user_prompt, _maybe_log_single_user_prompt, hrec] at he; simpa using he
    | vstr s => simp [_maybe_log_user_prompt, _maybe_log_single_user_prompt, hrec] at he; simpa using he
    | vdict entries => simp [_maybe_log_user_prompt, _maybe_log_single_user_prompt, hrec] at he; simpa using he
    | vobj attrs => simp [_maybe_log_user_prompt, _maybe_log_single_user_prompt, hrec] at he; simpa using he
  · intro h c i hrec
    cases hfr : c.finish_reason with
    | none => simp [candidateBody, hrec, hfr, List.lookup]
    | some fr => simp [candidateBody, hrec, hfr, List.lookup]
  · intro h function_name
    rfl

/-- Concrete helper with content recording disabled, for the C7 witness. -/
def redacting_helper : Helper := Helper.init "gemini" "gemini-2.0-flash" false

/-- Concrete config carrying a system instruction, for the C7 witness. -/
def witness_config : GenerateContentConfig :=
  { temperature := PyVal.vnone
    top_k := PyVal.vnone
    top_p := PyVal.vnone
    system_instruction := PyVal.vstr "be nice" }

/-- Witness for C7 at concrete inputs with recording disabled: the system
prompt body, the user prompt body and the candidate body all carry the
elision placeholder, and the span attributes are the expected four pairs. -/
theorem C7_redaction_when_recording_disabled_witness :
    _maybe_log_system_instruction redacting_helper (some witness_config) =
      [TelemetryEffect.logSystemPrompt
        [(GEN_AI_SYSTEM, PyVal.vstr "gemini")]
        [("content", PyVal.vstr _CONTENT_ELIDED)]] ∧
    (∀ e ∈ _maybe_log_user_prompt redacting_helper (PyVal.vstr "hello"),
      e = TelemetryEffect.logUserPrompt
            [(GEN_AI_SYSTEM, PyVal.vstr "gemini")]
            [("content", PyVal.vstr _CONTENT_ELIDED)]) ∧
    (candidateBody redacting_helper
        { content := some (PyVal.vstr "secret"), finish_reason := some "STOP" } 0).lookup
        "content" = some (PyVal.vstr _CONTENT_ELIDED) ∧
    start_span_attributes redacting_helper "google.genai.Models.generate_content" =
      [(CODE_FUNCTION_NAME, PyVal.vstr "google.genai.Models.generate_content"),
       (GEN_AI_SYSTEM, PyVal.vstr "gemini"),
       (GEN_AI_REQUEST_MODEL, PyVal.vstr "gemini-2.0-flash"),
       (GEN_AI_OPERATION_NAME, PyVal.vstr _GENERATE_CONTENT_OP_NAME)] := by
  refine ⟨?_, ?_, ?_, ?_⟩
  · exact C7_redaction_when_recording_disabled.1 redacting_helper (some witness_config) rfl rfl
  · intro e he
    exact C7_redaction_when_recording_disabled.2.1 redacting_helper (PyVal.vstr "hello") rfl e he
  · exact C7_redaction_when_recording_disabled.2.2.1 redacting_helper
      { content := some (PyVal.vstr "secret"), finish_reason := some "STOP" } 0 rfl
  · exact C7_redaction_when_recording_disabled.2.2.2 redacting_helper
      "google.genai.Models.generate_content"

/-! Interception controller.  The four mutable entry-point slots of the
Models and AsyncModels classes are modelled as a record of function
references; reference identity of a Python function object is modelled by a
natural-number identifier. -/

/-- The four process-wide entry-point slots (Models.generate_content,
Models.generate_content_stream, AsyncModels.generate_content,
AsyncModels.generate_content_stream), each holding a function reference. -/
structure EntryPoints where
  generate_content : Nat
  generate_content_stream : Nat
  async_generate_content : Nat
  async_generate_content_stream : Nat
deriving Repr, DecidableEq

/-- Embeds `_MethodsSnapshot.__init__`: captures the four entry-point
references current at construction time. -/
structure _MethodsSnapshot where
  original_generate_content : Nat
  original_generate_content_stream : Nat
  original_async_generate_content : Nat
  original_async_generate_content_stream : Nat
deriving Repr, DecidableEq

/-- Snapshot construction from the current entry points. -/
def snapshotInit (current : EntryPoints) : _MethodsSnapshot :=
  { original_generate_content := current.generate_content
    original_generate_content_stream := current.generate_content_stream
    original_async_generate_content := current.async_generate_content
    original_async_generate_content_stream := current.async_generate_content_stream }

/-- Embeds `_MethodsSnapshot.restore`: writes all four captured references
back into the entry-point slots, ignoring whatever is installed there. -/
def _MethodsSnapshot.restore (s : _MethodsSnapshot) (_ : EntryPoints) : EntryPoints :=
  { generate_content := s.original_generate_content
    generate_content_stream := s.original_generate_content_stream
    async_generate_content := s.original_async_generate_content
    async_generate_content_stream := s.original_async_generate_content_stream }

/-- Embeds `instrument_generate_content`: constructs the snapshot first
(capturing the values the slots hold immediately before install) and then
replaces the four slots with the four freshly created adapters, which are
built from the snapshot.  The adapter factory is abstract: any four new
function references may be installed. -/
def instrument_generate_content (current : EntryPoints)
    (adapters : _MethodsSnapshot → EntryPoints) : _MethodsSnapshot × EntryPoints :=
  let snapshot := snapshotInit current
  (snapshot, adapters snapshot)

/-- Embeds `uninstrument_generate_content`: restores the snapshot. -/
def uninstrument_generate_content (snapshot : _MethodsSnapshot)
    (current : EntryPoints) : EntryPoints :=
  snapshot.restore current

/-- C6: uninstalling after installing restores all four entry points to be
reference-identical to the values they held immediately before install,
whatever adapters the install placed there; and the snapshot taken at
install captures exactly those four originals. -/
theorem C6_uninstall_restores_originals :
    ∀ (m : EntryPoints) (adapters : _MethodsSnapshot → EntryPoints),
      uninstrument_generate_content
          (instrument_generate_content m adapters).1
          (instrument_generate_content m adapters).2 = m ∧
      (instrument_generate_content m adapters).1 =
        { original_generate_content := m.generate_content
          original_generate_content_stream := m.generate_content_stream
          original_async_generate_content := m.async_generate_content
          original_async_generate_content_stream := m.async_generate_content_stream } := by
  intro m adapters
  exact ⟨rfl, rfl⟩

/-! Call-shape adapters.  Each adapter is embedded as a function from an
explicit outcome scenario of the wrapped original entry point (and, for
streams, a consumption pattern of the caller) to the ordered trace of
instrumentation steps it performs together with the caller-observable
outcome.  A fault value carries its kind name plus a payload identifier so
that re-raising the identical fault is expressible. -/

/-- A raised fault of the wrapped call: the kind name of the exception
class plus a payload identifier distinguishing fault values of equal kind. -/
structure Fault where
  kind : String
  payload : Nat
deriving Repr, DecidableEq

/-- One instrumentation step performed by an adapter, in program order:
helper construction, span opening and closing, the request and response
processing calls into the accumulator, invoking the wrapped original entry
point, yielding an element to the caller, error classification, and the
finalize call. -/
inductive AdapterEvent where
  | helperCreated
  | spanOpened (end_on_exit : Bool)
  | spanClosed
  | processRequest
  | callOriginal
  | processResponse (i : Nat)
  | yieldToCaller (i : Nat)
  | processError (kind : String)
  | finalize
deriving Repr, DecidableEq

/-- The number of finalize steps in a trace. -/
def countFinalize : List AdapterEvent → Nat
  | [] => 0
  | AdapterEvent.finalize :: rest => countFinalize rest + 1
  | _ :: rest => countFinalize rest

theorem countFinalize_append (a b : List AdapterEvent) :
    countFinalize (a ++ b) = countFinalize a + countFinalize b := by
  induction a with
  | nil => simp [countFinalize]
  | cons e rest ih =>
    cases e <;>
      simp [countFinalize, ih, Nat.add_comm, Nat.add_left_comm, Nat.add_assoc]

/-- How the caller consumes a returned stream: either it keeps pulling
until the underlying stream is exhausted (or faults), or it pulls k
elements successfully and then abandons the stream (closing the
generator, as early return, garbage collection or an explicit close do). -/
inductive Consumption where
  | exhaust
  | abandonAfter (k : Nat)
deriving Repr, DecidableEq

/-- The per-item steps of a streaming adapter: the j-th pulled response is
processed and then re-yielded, for j ranging over the first n items. -/
def streamItemEvents : Nat → List AdapterEvent
  | 0 => []
  | n + 1 => streamItemEvents n ++
      [AdapterEvent.processResponse n, AdapterEvent.yieldToCaller n]

theorem countFinalize_streamItemEvents (n : Nat) :
    countFinalize (streamItemEvents n) = 0 := by
  induction n with
  | zero => rfl
  | succ n ih => simp [streamItemEvents, countFinalize_append, ih, countFinalize]

/-- Embeds `instrumented_generate_content` (the synchronous non-streaming
adapter): the helper is constructed, the span opened with end_on_exit, the
request processed, and the wrapped function invoked inside try/except/
finally — a normal return is processed and returned unchanged, a fault is
classified and re-raised unchanged, and finalize runs on both paths before
the span closes. -/
def instrumented_generate_content_run
    (outcome : Except Fault GenerateContentResponse) :
    List AdapterEvent × Except Fault GenerateContentResponse :=
  match outcome with
  | Except.ok r =>
    ([AdapterEvent.helperCreated, AdapterEvent.spanOpened true,
      AdapterEvent.processRequest, AdapterEvent.callOriginal,
      AdapterEvent.processResponse 0, AdapterEvent.finalize,
      AdapterEvent.spanClosed],
     Except.ok r)
  | Except.error f =>
    ([AdapterEvent.helperCreated, AdapterEvent.spanOpened true,
      AdapterEvent.processRequest, AdapterEvent.callOriginal,
      AdapterEvent.processError f.kind, AdapterEvent.finalize,
      AdapterEvent.spanClosed],
     Except.error f)

/-- Embeds the async non-streaming adapter `instrumented_generate_content`
of `_create_instrumented_async_generate_content`: identical control flow to
the synchronous adapter, with the wrapped invocation awaited. -/
def instrumented_async_generate_content_run
    (outcome : Except Fault GenerateContentResponse) :
    List AdapterEvent × Except Fault GenerateContentResponse :=
  match outcome with
  | Except.ok r =>
    ([AdapterEvent.helperCreated, AdapterEvent.spanOpened true,
      AdapterEvent.processRequest, AdapterEvent.callOriginal,
      AdapterEvent.processResponse 0, AdapterEvent.finalize,
      AdapterEvent.spanClosed],
     Except.ok r)
  | Except.error f =>
    ([AdapterEvent.helperCreated, AdapterEvent.spanOpened true,
      AdapterEvent.processRequest, AdapterEvent.callOriginal,
      AdapterEvent.processError f.kind, AdapterEvent.finalize,
      AdapterEvent.spanClosed],
     Except.error f)

/-- Calling `instrumented_generate_content_stream` executes none of the
adapter body: the function is a generator function (its body contains
yield), so per Python semantics the call returns a suspended generator and
performs no instrumentation step.  The trace of steps performed at call
time is therefore empty. -/
def instrumented_generate_content_stream_call_events : List AdapterEvent := []

/-- Embeds the full iteration behaviour of the suspended generator returned
by `instrumented_generate_content_stream`.  The underlying stream yields
the responses of rs in order and then either ends (tail none) or raises
(tail some fault).  On the first advance, the body runs up to the first
suspension: helper construction, span opening, request processing and the
invocation of the wrapped function.  Each pulled item is processed and
re-yielded.  Exhaustion ends the for loop and runs the finally block;
an underlying fault is classified in the except block, finalize runs in the
finally block, and the fault propagates to the consumer; abandonment after
k pulled elements injects GeneratorExit at the suspension point, which the
except Exception clause does not catch, so only the finally block runs.
A consumer that abandons after zero pulls never starts the generator, so
no step at all is performed. -/
def instrumented_generate_content_stream_run
    (rs : List GenerateContentResponse) (tail : Option Fault)
    (c : Consumption) : List AdapterEvent × Except Fault Unit :=
  match c with
  | Consumption.exhaust =>
    let base := [AdapterEvent.helperCreated, AdapterEvent.spanOpened true,
                 AdapterEvent.processRequest, AdapterEvent.callOriginal] ++
                streamItemEvents rs.length
    match tail with
    | none => (base ++ [AdapterEvent.finalize, AdapterEvent.spanClosed], Except.ok ())
    | some f =>
      (base ++ [AdapterEvent.processError f.kind, AdapterEvent.finalize,
                AdapterEvent.spanClosed],
       Except.error f)
  | Consumption.abandonAfter k =>
    if k = 0 then ([], Except.ok ())
    else
      ([AdapterEvent.helperCreated, AdapterEvent.spanOpened true,
        AdapterEvent.processRequest, AdapterEvent.callOriginal] ++
       streamItemEvents k ++ [AdapterEvent.finalize, AdapterEvent.spanClosed],
       Except.ok ())

/-- Embeds `instrumented_generate_content_stream` of the async-stream
adapter.  Awaiting the instrumented coroutine runs the call phase: helper
construction, span opening with end_on_exit false (the with block exits
without ending the span), request processing, and the await of the wrapped
function.  A fault of that initial await is classified, finalized, and
re-raised while the span is closed.  Otherwise a provider object is
returned and the wrapper generator, once iterated, re-enters the span scope,
processes and re-yields each item, classifies a mid-stream fault, and runs
finalize in its finally block on exhaustion, fault, or abandonment after at
least one pulled element; the span closes when the use_span scope exits.  A
returned provider that is never iterated performs no further step (and in
particular never finalizes). -/
def instrumented_async_generate_content_stream_run
    (initial : Except Fault Unit) (rs : List GenerateContentResponse)
    (tail : Option Fault) (c : Consumption) :
    List AdapterEvent × Except Fault Unit :=
  let callPhase := [AdapterEvent.helperCreated, AdapterEvent.spanOpened false,
                    AdapterEvent.processRequest, AdapterEvent.callOriginal]
  match initial with
  | Except.error f =>
    (callPhase ++ [AdapterEvent.processError f.kind, AdapterEvent.finalize,
                   AdapterEvent.spanClosed],
     Except.error f)
  | Except.ok _ =>
    match c with
    | Consumption.exhaust =>
      match tail with
      | none =>
        (callPhase ++ streamItemEvents rs.length ++
          [AdapterEvent.finalize, AdapterEvent.spanClosed],
         Except.ok ())
      | some f =>
        (callPhase ++ streamItemEvents rs.length ++
          [AdapterEvent.processError f.kind, AdapterEvent.finalize,
           AdapterEvent.spanClosed],
         Except.error f)
    | Consumption.abandonAfter k =>
      if k = 0 then (callPhase, Except.ok ())
      else
        (callPhase ++ streamItemEvents k ++
          [AdapterEvent.finalize, AdapterEvent.spanClosed],
         Except.ok ())

/-- C1: finalize is invoked exactly once per call context — for the
non-streaming adapters (sync and async) after either a normal return or a
raised fault; for the sync streaming adapter whether the stream is fully
consumed (ending normally or faulting mid-stream) or partially consumed and
abandoned after at least one element; and for the async streaming adapter
in the same scenarios, including the case where the fault occurs in the
initial await that obtains the async sequence. -/
theorem C1_finalize_exactly_once :
    (∀ outcome : Except Fault GenerateContentResponse,
      countFinalize (instrumented_generate_content_run outcome).1 = 1) ∧
    (∀ outcome : Except Fault GenerateContentResponse,
      countFinalize (instrumented_async_generate_content_run outcome).1 = 1) ∧
    (∀ (rs : List GenerateContentResponse) (tail : Option Fault),
      countFinalize
        (instrumented_generate_content_stream_run rs tail Consumption.exhaust).1 = 1) ∧
    (∀ (rs : List GenerateContentResponse) (tail : Option Fault) (k : Nat),
      1 ≤ k → k ≤ rs.length →
      countFinalize
        (instrumented_generate_content_stream_run rs tail
          (Consumption.abandonAfter k)).1 = 1) ∧
    (∀ (f : Fault) (rs : List GenerateContentResponse) (tail : Option Fault)
        (c : Consumption),
      countFinalize
        (instrumented_async_generate_content_stream_run (Except.error f) rs tail c).1 = 1) ∧
    (∀ (rs : List GenerateContentResponse) (tail : Option Fault),
      countFinalize
        (instrumented_async_generate_content_stream_run (Except.ok ()) rs tail
          Consumption.exhaust).1 = 1) ∧
    (∀ (rs : List GenerateContentResponse) (tail : Option Fault) (k : Nat),
      1 ≤ k → k ≤ rs.length →
      countFinalize
        (instrumented_async_generate_content_stream_run (Except.ok ()) rs tail
          (Consumption.abandonAfter k)).1 = 1) := by
  refine ⟨?_, ?_, ?_, ?_, ?_, ?_, ?_⟩
  · intro outcome
    cases outcome <;> rfl
  · intro outcome
    cases outcome <;> rfl
  · intro rs tail
    cases tail <;>
      simp [instrumented_generate_content_stream_run, countFinalize_append,
        countFinalize_streamItemEvents, countFinalize]
  · intro rs tail k hk _
    have hk0 : k ≠ 0 := by omega
    simp [instrumented_generate_content_stream_run, hk0, countFinalize_append,
      countFinalize_streamItemEvents, countFinalize]
  · intro f rs tail c
    cases c with
    | exhaust =>
      cases tail <;>
        simp [instrumented_async_generate_content_stream_run, countFinalize_append,
          countFinalize_streamItemEvents, countFinalize]
    | abandonAfter k =>
      simp [instrumented_async_generate_content_stream_run, countFinalize_append,
        countFinalize_streamItemEvents, countFinalize]
  · intro rs tail
    cases tail <;>
      simp [instrumented_async_generate_content_stream_run, countFinalize_append,
        countFinalize_streamItemEvents, countFinalize]
  · intro rs tail k hk _
    have hk0 : k ≠ 0 := by omega
    simp [instrumented_async_generate_content_stream_run, hk0, countFinalize_append,
      countFinalize_streamItemEvents, countFinalize]

/-- Witness for C1 at concrete inputs: the partial-consumption conjuncts,
whose hypotheses require at least one and at most all elements pulled, are
applied to a two-element stream abandoned after one element, and the
initial-await-fault conjunct is applied to a concrete fault. -/
theorem C1_finalize_exactly_once_witness :
    countFinalize
      (instrumented_generate_content_stream_run [empty_response, empty_response]
        none (Consumption.abandonAfter 1)).1 = 1 ∧
    countFinalize
      (instrumented_async_generate_content_stream_run (Except.ok ())
        [empty_response, empty_response] none (Consumption.abandonAfter 1)).1 = 1 ∧
    countFinalize
      (instrumented_async_generate_content_stream_run
        (Except.error { kind := "ClientError", payload := 3 }) [] none
        Consumption.exhaust).1 = 1 :=
  ⟨C1_finalize_exactly_once.2.2.2.1 [empty_response, empty_response] none 1
      (by decide) (by decide),
   C1_finalize_exactly_once.2.2.2.2.2.2 [empty_response, empty_response] none 1
      (by decide) (by decide),
   C1_finalize_exactly_once.2.2.2.2.1 { kind := "ClientError", payload := 3 } [] none
      Consumption.exhaust⟩

/-- C3: a fault raised by the wrapped original entry point is classified
and then re-raised as the identical fault value in each of the four
adapters — the non-streaming adapters on their fault path, the sync
streaming adapter when the underlying stream faults, and the async
streaming adapter both when the initial await faults and when the iteration
faults mid-stream.  The recorded classification is the kind name of the
fault (process_error stores it as the error type), and the caller-visible
outcome is exactly the outcome of the uninstrumented call. -/
theorem C3_faults_reraised_identically :
    (∀ f : Fault,
      (instrumented_generate_content_run (Except.error f)).2 = Except.error f ∧
      AdapterEvent.processError f.kind ∈ (instrumented_generate_content_run (Except.error f)).1) ∧
    (∀ outcome : Except Fault GenerateContentResponse,
      (instrumented_generate_content_run outcome).2 = outcome ∧
      (instrumented_async_generate_content_run outcome).2 = outcome) ∧
    (∀ f : Fault,
      AdapterEvent.processError f.kind ∈
        (instrumented_async_generate_content_run (Except.error f)).1) ∧
    (∀ (rs : List GenerateContentResponse) (f : Fault),
      (instrumented_generate_content_stream_run rs (some f) Consumption.exhaust).2 =
        Except.error f ∧
      AdapterEvent.processError f.kind ∈
        (instrumented_generate_content_stream_run rs (some f) Consumption.exhaust).1) ∧
    (∀ (rs : List GenerateContentResponse) (f : Fault),
      (instrumented_async_generate_content_stream_run (Except.ok ()) rs (some f)
          Consumption.exhaust).2 = Except.error f ∧
      AdapterEvent.processError f.kind ∈
        (instrumented_async_generate_content_stream_run (Except.ok ()) rs (some f)
          Consumption.exhaust).1) ∧
    (∀ (f : Fault) (rs : List GenerateContentResponse) (tail : Option Fault)
        (c : Consumption),
      (instrumented_async_generate_content_stream_run (Except.error f) rs tail c).2 =
        Except.error f ∧
      AdapterEvent.processError f.kind ∈
        (instrumented_async_generate_content_stream_run (Except.error f) rs tail c).1) ∧
    (∀ (h : Helper) (kind : String), (process_error h kind).error_type = some kind) := by
  refine ⟨?_, ?_, ?_, ?_, ?_, ?_, ?_⟩
  · intro f
    exact ⟨rfl, by simp [instrumented_generate_content_run]⟩
  · intro outcome
    cases outcome <;> exact ⟨rfl, rfl⟩
  · intro f
    simp [instrumented_async_generate_content_run]
  · intro rs f
    exact ⟨rfl, by simp [instrumented_generate_content_stream_run]⟩
  · intro rs f
    exact ⟨rfl, by simp [instrumented_async_generate_content_stream_run]⟩
  · intro f rs tail c
    exact ⟨rfl, by simp [instrumented_async_generate_content_stream_run]⟩
  · intro h kind
    rfl

/-- C10: invoking the installed synchronous streaming entry point performs
no instrumentation step at call time — the adapter is a generator function,
so the call returns a suspended generator without constructing the call
context, opening the span, emitting request events, or invoking the
original entry point; a consumer that abandons the generator before its
first advance leaves the trace empty (in particular finalize never runs),
and the helper construction, span opening, request processing and the
invocation of the original all happen on the first advance. -/
theorem C10_sync_stream_lazy :
    instrumented_generate_content_stream_call_events = [] ∧
    (∀ (rs : List GenerateContentResponse) (tail : Option Fault),
      instrumented_generate_content_stream_run rs tail (Consumption.abandonAfter 0) =
        ([], Except.ok ())) ∧
    (∀ (rs : List GenerateContentResponse) (tail : Option Fault),
      countFinalize
        (instrumented_generate_content_stream_run rs tail
          (Consumption.abandonAfter 0)).1 = 0) ∧
    (∀ (rs : List GenerateContentResponse) (tail : Option Fault),
      List.IsPrefix
        [AdapterEvent.helperCreated, AdapterEvent.spanOpened true,
         AdapterEvent.processRequest, AdapterEvent.callOriginal]
        (instrumented_generate_content_stream_run rs tail Consumption.exhaust).1) := by
  refine ⟨rfl, ?_, ?_, ?_⟩
  · intro rs tail
    rfl
  · intro rs tail
    rfl
  · intro rs tail
    cases tail with
    | none =>
      refine ⟨streamItemEvents rs.length ++
        [AdapterEvent.finalize, AdapterEvent.spanClosed], ?_⟩
      simp [instrumented_generate_content_stream_run]
    | some f =>
      refine ⟨streamItemEvents rs.length ++
        [AdapterEvent.processError f.kind, AdapterEvent.finalize,
         AdapterEvent.spanClosed], ?_⟩
      simp [instrumented_generate_content_stream_run]

/-! Tool wrapping.  `_wrapped_tool` executes, for a callable non-coroutine
tool, the statement should_record_contents = flags.is_content_recording_enabled()
before building the wrapper.  The module binds the function
is_content_recording_enabled directly (its only flags-related import is
from .flags import is_content_recording_enabled) and never binds the bare
name flags, so evaluating that statement raises NameError.  The embedding
makes the relevant name-resolution fact explicit and threads faults through
Except. -/

/-- Faults that can arise inside the tool-wrapping path. -/
inductive PyError where
  | nameError (name : String)
deriving Repr, DecidableEq

/-- A tool entry of a request configuration: whether Python callable() holds
for it, whether inspect.iscoroutinefunction holds, and an identifier for
reference identity. -/
structure ToolEntry where
  isCallable : Bool
  isCoroutineFn : Bool
  id : Nat
deriving Repr, DecidableEq

/-- The result of `_wrapped_tool` when it returns: the original entry passed
through unchanged, or a wrapper built around the original tool. -/
inductive WrappedToolResult where
  | passthrough (t : ToolEntry)
  | wrapped (t : ToolEntry)
deriving Repr, DecidableEq

/-- Whether the module generate_content.py binds the bare name flags at
module scope.  Its import list binds is_content_recording_enabled (imported
from .flags) and OTelWrapper, plus the google.genai and opentelemetry names;
no statement of the module binds flags itself. -/
def moduleBindsNameFlags : Bool := false

/-- Embeds `_wrapped_tool`: a non-callable entry is returned unchanged, a
coroutine-function tool is returned unchanged, and for a synchronous
callable tool the body first evaluates
flags.is_content_recording_enabled(), which raises NameError because the
name flags is unbound in the module; only if that name were bound would the
wrapper closure be produced. -/
def _wrapped_tool (tool : ToolEntry) : Except PyError WrappedToolResult :=
  if !tool.isCallable then Except.ok (WrappedToolResult.passthrough tool)
  else if tool.isCoroutineFn then Except.ok (WrappedToolResult.passthrough tool)
  else if moduleBindsNameFlags then Except.ok (WrappedToolResult.wrapped tool)
  else Except.error (PyError.nameError "flags")

/-- The shallow-copied configuration produced by `_wrapped_config_with_tools`.
The function reads config.tools but assigns the wrapped list to the
attribute named tool (singular), which is not the declared tools field of
GenerateContentConfig, so the declared tools field of the copy keeps the
original entries. -/
structure ConfigWithTools where
  tools : List ToolEntry
  tool : Option (List WrappedToolResult)
deriving Repr, DecidableEq

/-- Embeds `_wrapped_config_with_tools`: a shallow copy of the config whose
attribute tool receives the list produced by mapping `_wrapped_tool` over
config.tools (the list comprehension is evaluated before the assignment, so
a NameError from `_wrapped_tool` propagates first); the declared tools
field is left unchanged. -/
def _wrapped_config_with_tools (config : ConfigWithTools) :
    Except PyError ConfigWithTools :=
  match config.tools.mapM _wrapped_tool with
  | Except.error e => Except.error e
  | Except.ok wrapped => Except.ok { config with tool := some wrapped }

/-- C8 (divergence witness): wrapping a configuration that carries one
plain synchronous callable tool does not produce a shallow-copied
configuration with the tool replaced by an invoking wrapper — evaluating
`_wrapped_tool` on a synchronous callable tool raises NameError for the
unbound name flags, and the configuration-level wrapper propagates that
fault.  Non-callable entries and coroutine-function tools are passed
through unchanged, as the claim states.  Additionally, even where a wrapped
list is produced, it is assigned to the attribute tool while the declared
tools field keeps the original entries. -/
theorem C8_tool_wrapping_raises_name_error :
    _wrapped_tool { isCallable := true, isCoroutineFn := false, id := 7 } =
      Except.error (PyError.nameError "flags") ∧
    _wrapped_tool { isCallable := false, isCoroutineFn := false, id := 8 } =
      Except.ok (WrappedToolResult.passthrough
        { isCallable := false, isCoroutineFn := false, id := 8 }) ∧
    _wrapped_tool { isCallable := true, isCoroutineFn := true, id := 9 } =
      Except.ok (WrappedToolResult.passthrough
        { isCallable := true, isCoroutineFn := true, id := 9 }) ∧
    _wrapped_config_with_tools
        { tools := [{ isCallable := true, isCoroutineFn := false, id := 7 }],
          tool := none } =
      Except.error (PyError.nameError "flags") ∧
    (∀ config : ConfigWithTools,
      ∀ result, _wrapped_config_with_tools config = Except.ok result →
        result.tools = config.tools) := by
  refine ⟨rfl, rfl, rfl, rfl, ?_⟩
  intro config result hok
  unfold _wrapped_config_with_tools at hok
  cases hmap : config.tools.mapM _wrapped_tool with
  | error e => rw [hmap] at hok; cases hok
  | ok wrapped =>
    rw [hmap] at hok
    cases hok
    rfl

end GenAI
